import Mathlib

/-!
Verification of the simple agent API (`src/app.py`).

The Python source is shallowly embedded: every string primitive the code
uses (`str.lower`, substring membership via `in`, `str.replace` with an
empty replacement, `str.strip`) is given as an executable Lean function on
`List Char` / `String`, the three `SimpleAgent` instances and the registry
are translated literally, and the wall clock is passed explicitly as a
`Clock` value holding the two formatted timestamps the code reads
(`%Y-%m-%d %H:%M:%S` and `%H:%M:%S`).  Lowercasing is modelled for ASCII
text, which covers every keyword the code matches on.
-/

/-- Prefix test on char lists, embedding the leftmost-match step of
Python substring search. -/
def isPrefixOfList : List Char → List Char → Bool
  | [], _ => true
  | _ :: _, [] => false
  | a :: as, b :: bs => a == b && isPrefixOfList as bs

/-- Embedding of Python `needle in haystack` on char lists: some suffix
of `haystack` starts with `needle`. -/
def containsSub : List Char → List Char → Bool
  | [], needle => needle.isEmpty
  | h :: t, needle => isPrefixOfList needle (h :: t) || containsSub t needle

/-- Python `sub in s` for strings. -/
def strContains (s sub : String) : Bool :=
  containsSub s.data sub.data

/-- Python `any(word in s for word in words)`. -/
def anyWordIn (s : String) (words : List String) : Bool :=
  words.any (fun w => strContains s w)

/-- One pass of Python `s.replace(old, new)`: replace every
non-overlapping occurrence of `old`, scanning left to right.  Every step
consumes at least one character, so `fuel = length of the scanned list`
makes the recursion structural (and hence kernel-reducible) while agreeing
with the unbounded scan. -/
def replaceFuel (old new : List Char) : Nat → List Char → List Char
  | 0, l => l
  | _ + 1, [] => []
  | fuel + 1, c :: cs =>
    if isPrefixOfList old (c :: cs) && !old.isEmpty then
      new ++ replaceFuel old new fuel (List.drop (old.length - 1) cs)
    else
      c :: replaceFuel old new fuel cs

/-- Python `s.replace(old, new)` (the code only calls it with a non-empty
`old` and `new = ""`). -/
def pyReplace (s old new : String) : String :=
  ⟨replaceFuel old.data new.data s.data.length s.data⟩

/-- The characters Python `str.strip()` removes. -/
def isPySpace (c : Char) : Bool :=
  c == ' ' || c == '\t' || c == '\n' || c == '\r' || c == '\x0b' || c == '\x0c'

/-- Python `s.strip()`: drop leading and trailing whitespace. -/
def pyStrip (s : String) : String :=
  ⟨((s.data.dropWhile isPySpace).reverse.dropWhile isPySpace).reverse⟩

/-- Python `s.lower()` restricted to ASCII (`Char.toLower` maps A–Z). -/
def pyLower (s : String) : String :=
  ⟨s.data.map Char.toLower⟩

/-- The wall clock, frozen at the two formats the code reads via
`datetime.now().strftime`: `full` is `%Y-%m-%d %H:%M:%S`, `hms` is
`%H:%M:%S`. -/
structure Clock where
  full : String
  hms : String

/-- Embedding of `get_current_time` (src/app.py lines 28–31). -/
def get_current_time (clock : Clock) : String :=
  "The current time is " ++ clock.full

/-- Embedding of `perform_task` (src/app.py lines 33–35). -/
def perform_task (clock : Clock) (task : String) : String :=
  "Task completed: " ++ task ++ ". Status: Success at " ++ clock.hms

/-- Embedding of the `SimpleAgent` class (src/app.py lines 38–43): name,
description, tool names, sub-agents. -/
inductive SimpleAgent : Type where
  | mk (name description : String) (tools : List String)
      (subAgents : List SimpleAgent)

def SimpleAgent.name : SimpleAgent → String
  | .mk n _ _ _ => n

def SimpleAgent.description : SimpleAgent → String
  | .mk _ d _ _ => d

def SimpleAgent.tools : SimpleAgent → List String
  | .mk _ _ t _ => t

def SimpleAgent.subAgents : SimpleAgent → List SimpleAgent
  | .mk _ _ _ s => s

/-- Embedding of `SimpleAgent._get_simulated_response` (src/app.py lines
68–101).
The coordinator branch calls `run_live` on a sub-agent; this function is
only ever reached with `USE_OPENAI` false, in which case that call is
again `_get_simulated_response`, embedded here as direct recursion. -/
def SimpleAgent.getSimulatedResponse (clock : Clock) :
    SimpleAgent → String → String
  | .mk nm desc _ subs, query =>
    let queryLower := pyLower query
    if nm == "greeter" then
      if anyWordIn queryLower ["hello", "hi", "hey", "greet"] then
        "Hello! Welcome! I\x27m " ++ nm ++
          " and I\x27m here to make you feel welcome. How can I assist you today?"
      else
        "Greetings! I\x27m " ++ nm ++ ". " ++ desc
    else if nm == "task_executor" then
      if anyWordIn queryLower ["time", "clock", "when"] then
        get_current_time clock
      else if anyWordIn queryLower ["task", "do", "execute", "perform", "run"] then
        let task :=
          pyStrip (pyReplace (pyReplace (pyReplace query "perform" "") "task" "")
            "execute" "")
        let task := if task == "" then "general task" else task
        perform_task clock task
      else
        "I\x27m " ++ nm ++
          ". I can help you execute tasks and get the current time. What would you like me to do?"
    else if nm == "coordinator" then
      if strContains queryLower "greet" || strContains queryLower "hello" then
        let greeterResponse :=
          match subs with
          | g :: _ => SimpleAgent.getSimulatedResponse clock g query
          | [] => "Hello from coordinator!"
        "[Coordinator] Routing to greeter: " ++ greeterResponse
      else if anyWordIn queryLower ["task", "time", "execute", "perform"] then
        let executorResponse :=
          match subs with
          | _ :: e :: _ => SimpleAgent.getSimulatedResponse clock e query
          | _ => perform_task clock query
        "[Coordinator] Routing to task executor: " ++ executorResponse
      else
        "I\x27m the coordinator. I can route your requests to specialized agents: greeter for welcomes, task_executor for tasks and time. What do you need?"
    else
      "I\x27m " ++ nm ++ ". " ++ desc

/-- Embedding of `SimpleAgent._get_openai_response` (src/app.py lines
52–66), with the
external completion call abstracted as an `Except` outcome: on success the
generated text is trimmed, on any exception the message is wrapped. -/
def getOpenaiResponse (svc : Except String String) : String :=
  match svc with
  | .ok content => pyStrip content
  | .error e => "OpenAI API Error: " ++ e

/-- Embedding of `SimpleAgent.run_live` (src/app.py lines 45–50):
`useOpenai` embeds the process-wide `USE_OPENAI and openai_client`
condition. -/
def SimpleAgent.runLive (useOpenai : Bool) (svc : Except String String)
    (clock : Clock) (a : SimpleAgent) (query : String) : String :=
  if useOpenai then getOpenaiResponse svc
  else a.getSimulatedResponse clock query

/-- The `greeter` agent (src/app.py lines 104–107). -/
def greeter : SimpleAgent :=
  .mk "greeter" "I specialize in greeting users and making them feel welcome."
    [] []

/-- The `task_executor` agent (src/app.py lines 109–113). -/
def task_executor : SimpleAgent :=
  .mk "task_executor" "I specialize in executing tasks and getting things done."
    ["perform_task", "get_current_time"] []

/-- The `coordinator` agent (src/app.py lines 115–119). -/
def coordinator : SimpleAgent :=
  .mk "coordinator" "I coordinate greetings and tasks." [] [greeter, task_executor]

/-- The `agents` registry dict (src/app.py lines 122–126), as an
association list in insertion order. -/
def agentsRegistry : List (String × SimpleAgent) :=
  [("greeter", greeter), ("task_executor", task_executor),
   ("coordinator", coordinator)]

/-- Embedding of `list(agents.keys())`. -/
def agentNames : List String :=
  agentsRegistry.map Prod.fst

/-- Embedding of `agents[name]` and of the `name in agents` test. -/
def lookupAgent (n : String) : Option SimpleAgent :=
  (agentsRegistry.find? (fun p => p.1 == n)).map (fun p => p.2)

/-- The spec's `ResponsePolicy.resolve(agentName, query)`: the simulated
response of the registered agent of that name. -/
def resolve (agentName : String) (clock : Clock) (query : String) :
    Option String :=
  (lookupAgent agentName).map (fun a => a.getSimulatedResponse clock query)

/-- Python `d.get(k)` on the parsed JSON body, modelled as an association
list of string fields. -/
def pyDictGet (d : List (String × String)) (k : String) : Option String :=
  (d.find? (fun p => p.1 == k)).map (fun p => p.2)

/-- The observable parts of the `/ask` HTTP response: status code, the
`error` and `available_agents` fields of a 4xx body, and the `agent`,
`query`, `response` fields of a 200 body (the timestamp and `openai_used`
echo are omitted as they carry no routing information). -/
structure AskResponse where
  status : Nat
  error : Option String
  availableAgents : Option (List String)
  agent : Option String
  query : Option String
  response : Option String
deriving DecidableEq, Repr

/-- The `ask` handler (src/app.py lines 146–186).  `data` is `request.json`
(`none` = missing/unparseable body); Python `if not data` is also true for
an empty dict, and `if not query` is true for a missing key or an empty
string.  The `run_live` call of a registered agent is total, so the
`except` 500 path is unreachable in the simulated model. -/
def ask (useOpenai : Bool) (svc : Except String String) (clock : Clock)
    (data : Option (List (String × String))) : AskResponse :=
  match data with
  | none => ⟨400, some "No data provided", none, none, none, none⟩
  | some d =>
    if d.isEmpty then ⟨400, some "No data provided", none, none, none, none⟩
    else
      let agentName := (pyDictGet d "agent").getD "coordinator"
      match pyDictGet d "query" with
      | none => ⟨400, some "No query provided", none, none, none, none⟩
      | some q =>
        if q == "" then ⟨400, some "No query provided", none, none, none, none⟩
        else
          match lookupAgent agentName with
          | none =>
            ⟨404, some ("Agent \x27" ++ agentName ++ "\x27 not found"),
              some agentNames, none, none, none⟩
          | some a =>
            ⟨200, none, none, some agentName, some q,
              some (SimpleAgent.runLive useOpenai svc clock a q)⟩

/-- Unfolding of the simulated response of the registered `greeter`. -/
theorem greeter_resp_eq (c : Clock) (q : String) :
    greeter.getSimulatedResponse c q =
      if anyWordIn (pyLower q) ["hello", "hi", "hey", "greet"] then
        "Hello! Welcome! I\x27m greeter and I\x27m here to make you feel welcome. How can I assist you today?"
      else
        "Greetings! I\x27m greeter. I specialize in greeting users and making them feel welcome." := rfl

/-- Unfolding of the simulated response of the registered `task_executor`. -/
theorem taskExecutor_resp_eq (c : Clock) (q : String) :
    task_executor.getSimulatedResponse c q =
      if anyWordIn (pyLower q) ["time", "clock", "when"] then
        get_current_time c
      else if anyWordIn (pyLower q) ["task", "do", "execute", "perform", "run"] then
        perform_task c
          (if pyStrip (pyReplace (pyReplace (pyReplace q "perform" "") "task" "")
              "execute" "") == "" then
            "general task"
          else
            pyStrip (pyReplace (pyReplace (pyReplace q "perform" "") "task" "")
              "execute" ""))
      else
        "I\x27m task_executor. I can help you execute tasks and get the current time. What would you like me to do?" := rfl

/-- Unfolding of the simulated response of the registered `coordinator`
(which has `greeter` at child index 0 and `task_executor` at index 1). -/
theorem coordinator_resp_eq (c : Clock) (q : String) :
    coordinator.getSimulatedResponse c q =
      if strContains (pyLower q) "greet" || strContains (pyLower q) "hello" then
        "[Coordinator] Routing to greeter: " ++ greeter.getSimulatedResponse c q
      else if anyWordIn (pyLower q) ["task", "time", "execute", "perform"] then
        "[Coordinator] Routing to task executor: " ++
          task_executor.getSimulatedResponse c q
      else
        "I\x27m the coordinator. I can route your requests to specialized agents: greeter for welcomes, task_executor for tasks and time. What do you need?" := rfl

/-- Looking up a name outside the three registered ones yields nothing. -/
theorem lookupAgent_of_not_registered (a : String) (h₁ : a ≠ "greeter")
    (h₂ : a ≠ "task_executor") (h₃ : a ≠ "coordinator") :
    lookupAgent a = none := by
  have g₁ : ("greeter" == a) = false := beq_eq_false_iff_ne.mpr (Ne.symm h₁)
  have g₂ : ("task_executor" == a) = false := beq_eq_false_iff_ne.mpr (Ne.symm h₂)
  have g₃ : ("coordinator" == a) = false := beq_eq_false_iff_ne.mpr (Ne.symm h₃)
  simp [lookupAgent, agentsRegistry, List.find?, g₁, g₂, g₃]

/-- Simulated response of an agent whose name is none of the three
registered ones: the final name-and-description fallback, for every
children-list shape. -/
theorem getSimulatedResponse_other (nm desc : String) (tools : List String)
    (subs : List SimpleAgent)
    (h₁ : nm ≠ "greeter") (h₂ : nm ≠ "task_executor") (h₃ : nm ≠ "coordinator")
    (c : Clock) (q : String) :
    (SimpleAgent.mk nm desc tools subs).getSimulatedResponse c q =
      "I\x27m " ++ nm ++ ". " ++ desc := by
  have g₁ : ¬((nm == "greeter") = true) := by simp [beq_eq_false_iff_ne.mpr h₁]
  have g₂ : ¬((nm == "task_executor") = true) := by simp [beq_eq_false_iff_ne.mpr h₂]
  have g₃ : ¬((nm == "coordinator") = true) := by simp [beq_eq_false_iff_ne.mpr h₃]
  rcases subs with _ | ⟨g, _ | ⟨e, t⟩⟩
  · have eq0 : (SimpleAgent.mk nm desc tools []).getSimulatedResponse c q =
        if nm == "greeter" then
          if anyWordIn (pyLower q) ["hello", "hi", "hey", "greet"] then
            "Hello! Welcome! I\x27m " ++ nm ++
              " and I\x27m here to make you feel welcome. How can I assist you today?"
          else
            "Greetings! I\x27m " ++ nm ++ ". " ++ desc
        else if nm == "task_executor" then
          if anyWordIn (pyLower q) ["time", "clock", "when"] then
            get_current_time c
          else if anyWordIn (pyLower q) ["task", "do", "execute", "perform", "run"] then
            perform_task c
              (if pyStrip (pyReplace (pyReplace (pyReplace q "perform" "") "task" "")
                  "execute" "") == "" then "general task"
               else pyStrip (pyReplace (pyReplace (pyReplace q "perform" "") "task" "")
                  "execute" ""))
          else
            "I\x27m " ++ nm ++
              ". I can help you execute tasks and get the current time. What would you like me to do?"
        else if nm == "coordinator" then
          if strContains (pyLower q) "greet" || strContains (pyLower q) "hello" then
            "[Coordinator] Routing to greeter: " ++ "Hello from coordinator!"
          else if anyWordIn (pyLower q) ["task", "time", "execute", "perform"] then
            "[Coordinator] Routing to task executor: " ++ perform_task c q
          else
            "I\x27m the coordinator. I can route your requests to specialized agents: greeter for welcomes, task_executor for tasks and time. What do you need?"
        else
          "I\x27m " ++ nm ++ ". " ++ desc := rfl
    rw [eq0, if_neg g₁, if_neg g₂, if_neg g₃]
  · have eq1 : (SimpleAgent.mk nm desc tools [g]).getSimulatedResponse c q =
        if nm == "greeter" then
          if anyWordIn (pyLower q) ["hello", "hi", "hey", "greet"] then
            "Hello! Welcome! I\x27m " ++ nm ++
              " and I\x27m here to make you feel welcome. How can I assist you today?"
          else
            "Greetings! I\x27m " ++ nm ++ ". " ++ desc
        else if nm == "task_executor" then
          if anyWordIn (pyLower q) ["time", "clock", "when"] then
            get_current_time c
          else if anyWordIn (pyLower q) ["task", "do", "execute", "perform", "run"] then
            perform_task c
              (if pyStrip (pyReplace (pyReplace (pyReplace q "perform" "") "task" "")
                  "execute" "") == "" then "general task"
               else pyStrip (pyReplace (pyReplace (pyReplace q "perform" "") "task" "")
                  "execute" ""))
          else
            "I\x27m " ++ nm ++
              ". I can help you execute tasks and get the current time. What would you like me to do?"
        else if nm == "coordinator" then
          if strContains (pyLower q) "greet" || strContains (pyLower q) "hello" then
            "[Coordinator] Routing to greeter: " ++ g.getSimulatedResponse c q
          else if anyWordIn (pyLower q) ["task", "time", "execute", "perform"] then
            "[Coordinator] Routing to task executor: " ++ perform_task c q
          else
            "I\x27m the coordinator. I can route your requests to specialized agents: greeter for welcomes, task_executor for tasks and time. What do you need?"
        else
          "I\x27m " ++ nm ++ ". " ++ desc := rfl
    rw [eq1, if_neg g₁, if_neg g₂, if_neg g₃]
  · have eq2 : (SimpleAgent.mk nm desc tools (g :: e :: t)).getSimulatedResponse c q =
        if nm == "greeter" then
          if anyWordIn (pyLower q) ["hello", "hi", "hey", "greet"] then
            "Hello! Welcome! I\x27m " ++ nm ++
              " and I\x27m here to make you feel welcome. How can I assist you today?"
          else
            "Greetings! I\x27m " ++ nm ++ ". " ++ desc
        else if nm == "task_executor" then
          if anyWordIn (pyLower q) ["time", "clock", "when"] then
            get_current_time c
          else if anyWordIn (pyLower q) ["task", "do", "execute", "perform", "run"] then
            perform_task c
              (if pyStrip (pyReplace (pyReplace (pyReplace q "perform" "") "task" "")
                  "execute" "") == "" then "general task"
               else pyStrip (pyReplace (pyReplace (pyReplace q "perform" "") "task" "")
                  "execute" ""))
          else
            "I\x27m " ++ nm ++
              ". I can help you execute tasks and get the current time. What would you like me to do?"
        else if nm == "coordinator" then
          if strContains (pyLower q) "greet" || strContains (pyLower q) "hello" then
            "[Coordinator] Routing to greeter: " ++ g.getSimulatedResponse c q
          else if anyWordIn (pyLower q) ["task", "time", "execute", "perform"] then
            "[Coordinator] Routing to task executor: " ++ e.getSimulatedResponse c q
          else
            "I\x27m the coordinator. I can route your requests to specialized agents: greeter for welcomes, task_executor for tasks and time. What do you need?"
        else
          "I\x27m " ++ nm ++ ". " ++ desc := rfl
    rw [eq2, if_neg g₁, if_neg g₂, if_neg g₃]

/-- C1 as stated is false: in `resolve("task_executor", "please perform
task cleanup")` the stripping removes only the literal substrings
`"perform"`, `"task"`, `"execute"`, so the word `"please"` and the interior
whitespace survive and the task substring is `"please   cleanup"`, not
`"cleanup"`; at a clock reading `10:00:00` the reply therefore differs from
the claimed `"Task completed: cleanup. Status: Success at 10:00:00"`. -/
theorem claim_C1_counterexample :
    pyStrip (pyReplace (pyReplace (pyReplace "please perform task cleanup"
        "perform" "") "task" "") "execute" "") ≠ "cleanup" ∧
    resolve "task_executor" ⟨"2026-10-12 10:00:00", "10:00:00"⟩
        "please perform task cleanup" ≠
      some "Task completed: cleanup. Status: Success at 10:00:00" :=
  ⟨by decide, by decide⟩

/-- C1 (amended): `resolve("task_executor", "please perform task cleanup")`
matches the task-keyword branch, and stripping the literal substrings
`"perform"`, `"task"`, `"execute"` from the original query and trimming
leaves `"please   cleanup"`, so the reply is `"Task completed: please
cleanup. Status: Success at HH:MM:SS"` (with three interior spaces) at the
current wall-clock reading. -/
theorem claim_C1 (c : Clock) :
    resolve "task_executor" c "please perform task cleanup" =
      some ("Task completed: please   cleanup. Status: Success at " ++ c.hms) ∧
    pyStrip (pyReplace (pyReplace (pyReplace "please perform task cleanup"
        "perform" "") "task" "") "execute" "") = "please   cleanup" :=
  ⟨rfl, rfl⟩

/-- C2: for every query whose lowercase form contains one of `"hello"`,
`"hi"`, `"hey"`, `"greet"`, `resolve("greeter", query)` is a reply
containing the literal `"Hello! Welcome!"` and the agent's name; for every
other query it is a greeting containing the agent's description. -/
theorem claim_C2 (c : Clock) (q : String) :
    (anyWordIn (pyLower q) ["hello", "hi", "hey", "greet"] = true →
      ∃ r, resolve "greeter" c q = some r ∧
        strContains r "Hello! Welcome!" = true ∧
        strContains r greeter.name = true) ∧
    (anyWordIn (pyLower q) ["hello", "hi", "hey", "greet"] = false →
      ∃ r, resolve "greeter" c q = some r ∧
        strContains r greeter.description = true) := by
  have e : resolve "greeter" c q = some (greeter.getSimulatedResponse c q) := rfl
  constructor
  · intro h
    refine ⟨_, e, ?_, ?_⟩ <;> rw [greeter_resp_eq, if_pos h] <;> decide
  · intro h
    refine ⟨_, e, ?_⟩
    rw [greeter_resp_eq, if_neg (by simp [h])]
    decide

/-- Concrete instantiation of `claim_C2`: query `"hi"` takes the welcome
branch and query `"bye"` the generic branch. -/
theorem claim_C2_witness :
    (∃ r, resolve "greeter" ⟨"2026-10-12 10:00:00", "10:00:00"⟩ "hi" = some r ∧
      strContains r "Hello! Welcome!" = true ∧
      strContains r greeter.name = true) ∧
    (∃ r, resolve "greeter" ⟨"2026-10-12 10:00:00", "10:00:00"⟩ "bye" = some r ∧
      strContains r greeter.description = true) :=
  ⟨(claim_C2 ⟨"2026-10-12 10:00:00", "10:00:00"⟩ "hi").1 (by decide),
   (claim_C2 ⟨"2026-10-12 10:00:00", "10:00:00"⟩ "bye").2 (by decide)⟩

/-- C3: `resolve("task_executor", "perform task")` strips to an empty
remainder and falls back to the task name `"general task"`. -/
theorem claim_C3 (c : Clock) :
    resolve "task_executor" c "perform task" =
      some ("Task completed: general task. Status: Success at " ++ c.hms) := rfl

/-- C4: coordinator dispatch with its two children present.  A query whose
lowercase form contains `"greet"` or `"hello"` is routed to the greeter
child (index 0) with the `"[Coordinator] Routing to greeter: "` prefix —
and this branch wins even when task keywords are also present, since it
carries no hypothesis about them; otherwise a query containing one of
`"task"`, `"time"`, `"execute"`, `"perform"` is routed to the
task-executor child (index 1) with the `"[Coordinator] Routing to task
executor: "` prefix; otherwise the fixed capability string is returned
with no prefix.  Concretely, `"Hello there"` takes the greeter prefix,
`"run my task"` the task-executor prefix, and `"what's up"` the
unprefixed fallback. -/
theorem claim_C4 (c : Clock) (q : String) :
    ((strContains (pyLower q) "greet" || strContains (pyLower q) "hello") = true →
      resolve "coordinator" c q =
        some ("[Coordinator] Routing to greeter: " ++
          greeter.getSimulatedResponse c q)) ∧
    ((strContains (pyLower q) "greet" || strContains (pyLower q) "hello") = false →
      anyWordIn (pyLower q) ["task", "time", "execute", "perform"] = true →
      resolve "coordinator" c q =
        some ("[Coordinator] Routing to task executor: " ++
          task_executor.getSimulatedResponse c q)) ∧
    ((strContains (pyLower q) "greet" || strContains (pyLower q) "hello") = false →
      anyWordIn (pyLower q) ["task", "time", "execute", "perform"] = false →
      resolve "coordinator" c q =
        some "I\x27m the coordinator. I can route your requests to specialized agents: greeter for welcomes, task_executor for tasks and time. What do you need?") ∧
    resolve "coordinator" c "Hello there" =
      some "[Coordinator] Routing to greeter: Hello! Welcome! I\x27m greeter and I\x27m here to make you feel welcome. How can I assist you today?" ∧
    resolve "coordinator" c "run my task" =
      some ("[Coordinator] Routing to task executor: Task completed: run my. Status: Success at "
        ++ c.hms) ∧
    resolve "coordinator" c "what\x27s up" =
      some "I\x27m the coordinator. I can route your requests to specialized agents: greeter for welcomes, task_executor for tasks and time. What do you need?" := by
  have e : resolve "coordinator" c q =
      some (coordinator.getSimulatedResponse c q) := rfl
  refine ⟨?_, ?_, ?_, rfl, rfl, rfl⟩
  · intro hg
    rw [e, coordinator_resp_eq, if_pos hg]
  · intro hg ht
    rw [e, coordinator_resp_eq, if_neg (by simp [hg]), if_pos ht]
  · intro hg ht
    rw [e, coordinator_resp_eq, if_neg (by simp [hg]), if_neg (by simp [ht])]

/-- Concrete instantiation of `claim_C4`: the three hypothetical branches
evaluated at `"greet and also do a task"`, `"run my task"` and
`"what's up"`. -/
theorem claim_C4_witness :
    resolve "coordinator" ⟨"2026-10-12 10:00:00", "10:00:00"⟩
        "greet and also do a task" =
      some ("[Coordinator] Routing to greeter: " ++
        greeter.getSimulatedResponse ⟨"2026-10-12 10:00:00", "10:00:00"⟩
          "greet and also do a task") ∧
    resolve "coordinator" ⟨"2026-10-12 10:00:00", "10:00:00"⟩ "run my task" =
      some ("[Coordinator] Routing to task executor: " ++
        task_executor.getSimulatedResponse ⟨"2026-10-12 10:00:00", "10:00:00"⟩
          "run my task") ∧
    resolve "coordinator" ⟨"2026-10-12 10:00:00", "10:00:00"⟩ "what\x27s up" =
      some "I\x27m the coordinator. I can route your requests to specialized agents: greeter for welcomes, task_executor for tasks and time. What do you need?" :=
  ⟨(claim_C4 ⟨"2026-10-12 10:00:00", "10:00:00"⟩ "greet and also do a task").1
      (by decide),
   (claim_C4 ⟨"2026-10-12 10:00:00", "10:00:00"⟩ "run my task").2.1
      (by decide) (by decide),
   (claim_C4 ⟨"2026-10-12 10:00:00", "10:00:00"⟩ "what\x27s up").2.2.1
      (by decide) (by decide)⟩

/-- C5: a coordinator-named agent with fewer than two children, on a query
that matches the task keywords but not the greeting ones, falls back to
`perform_task` applied to the raw, unstripped query and wraps it with the
task-executor routing prefix — bypassing the keyword-stripping and
empty-remainder logic of the `task_executor` branch. -/
theorem claim_C5 (desc : String) (tools : List String)
    (subs : List SimpleAgent) (c : Clock) (q : String)
    (hlen : subs.length < 2)
    (hg : (strContains (pyLower q) "greet" || strContains (pyLower q) "hello") = false)
    (ht : anyWordIn (pyLower q) ["task", "time", "execute", "perform"] = true) :
    (SimpleAgent.mk "coordinator" desc tools subs).getSimulatedResponse c q =
      "[Coordinator] Routing to task executor: " ++ perform_task c q := by
  rcases subs with _ | ⟨a, _ | ⟨b, t⟩⟩
  · have e : (SimpleAgent.mk "coordinator" desc tools []).getSimulatedResponse c q =
        if strContains (pyLower q) "greet" || strContains (pyLower q) "hello" then
          "[Coordinator] Routing to greeter: " ++ "Hello from coordinator!"
        else if anyWordIn (pyLower q) ["task", "time", "execute", "perform"] then
          "[Coordinator] Routing to task executor: " ++ perform_task c q
        else
          "I\x27m the coordinator. I can route your requests to specialized agents: greeter for welcomes, task_executor for tasks and time. What do you need?" := rfl
    rw [e, if_neg (by simp [hg]), if_pos ht]
  · have e : (SimpleAgent.mk "coordinator" desc tools [a]).getSimulatedResponse c q =
        if strContains (pyLower q) "greet" || strContains (pyLower q) "hello" then
          "[Coordinator] Routing to greeter: " ++ a.getSimulatedResponse c q
        else if anyWordIn (pyLower q) ["task", "time", "execute", "perform"] then
          "[Coordinator] Routing to task executor: " ++ perform_task c q
        else
          "I\x27m the coordinator. I can route your requests to specialized agents: greeter for welcomes, task_executor for tasks and time. What do you need?" := rfl
    rw [e, if_neg (by simp [hg]), if_pos ht]
  · simp only [List.length_cons] at hlen
    omega

/-- Concrete instantiation of `claim_C5`: a childless coordinator on the
query `"perform cleanup now"` echoes the raw query in the reply. -/
theorem claim_C5_witness :
    (SimpleAgent.mk "coordinator" "I coordinate greetings and tasks." []
        []).getSimulatedResponse ⟨"2026-10-12 10:00:00", "10:00:00"⟩
        "perform cleanup now" =
      "[Coordinator] Routing to task executor: " ++
        perform_task ⟨"2026-10-12 10:00:00", "10:00:00"⟩ "perform cleanup now" :=
  claim_C5 "I coordinate greetings and tasks." [] []
    ⟨"2026-10-12 10:00:00", "10:00:00"⟩ "perform cleanup now"
    (by decide) (by decide) (by decide)

/-- C6: a `/ask` body naming an agent outside the registered set, with a
non-empty query, yields HTTP 404 with an error naming the unknown value
and `available_agents` listing exactly the three registered names; a body
with no `agent` field defaults to `"coordinator"` and yields 200, never
404. -/
theorem claim_C6 (u : Bool) (svc : Except String String) (c : Clock)
    (d : List (String × String)) :
    (∀ a q, pyDictGet d "agent" = some a → a ∉ agentNames →
      pyDictGet d "query" = some q → q ≠ "" →
      ask u svc c (some d) =
        ⟨404, some ("Agent \x27" ++ a ++ "\x27 not found"), some agentNames,
          none, none, none⟩) ∧
    (∀ q, pyDictGet d "agent" = none → pyDictGet d "query" = some q → q ≠ "" →
      (ask u svc c (some d)).status = 200) := by
  constructor
  · intro a q ha hmem hq hqne
    rcases d with _ | ⟨p, t⟩
    · simp [pyDictGet] at hq
    · have hmem' : ¬(a = "greeter" ∨ a = "task_executor" ∨ a = "coordinator") := by
        simpa [agentNames, agentsRegistry] using hmem
      push_neg at hmem'
      have hl : lookupAgent a = none :=
        lookupAgent_of_not_registered a hmem'.1 hmem'.2.1 hmem'.2.2
      have hqb : (q == "") = false := beq_eq_false_iff_ne.mpr hqne
      simp [ask, ha, hq, hl, hqb]
  · intro q ha hq hqne
    rcases d with _ | ⟨p, t⟩
    · simp [pyDictGet] at hq
    · have hqb : (q == "") = false := beq_eq_false_iff_ne.mpr hqne
      have hl : lookupAgent "coordinator" = some coordinator := rfl
      simp [ask, ha, hq, hl, hqb]

/-- Concrete instantiation of `claim_C6`: body
`{"agent": "unknown", "query": "hi"}` yields the 404 response, and body
`{"query": "hi"}` yields status 200. -/
theorem claim_C6_witness :
    ask false (Except.ok "") ⟨"2026-10-12 10:00:00", "10:00:00"⟩
        (some [("agent", "unknown"), ("query", "hi")]) =
      ⟨404, some ("Agent \x27" ++ "unknown" ++ "\x27 not found"),
        some agentNames, none, none, none⟩ ∧
    (ask false (Except.ok "") ⟨"2026-10-12 10:00:00", "10:00:00"⟩
        (some [("query", "hi")])).status = 200 :=
  ⟨(claim_C6 false (Except.ok "") ⟨"2026-10-12 10:00:00", "10:00:00"⟩
      [("agent", "unknown"), ("query", "hi")]).1 "unknown" "hi"
      (by decide) (by decide) (by decide) (by decide),
   (claim_C6 false (Except.ok "") ⟨"2026-10-12 10:00:00", "10:00:00"⟩
      [("query", "hi")]).2 "hi" (by decide) (by decide) (by decide)⟩

/-- C7: `run_live` never raises.  With the external service enabled, any
failure of the underlying call is converted into the returned string
`"OpenAI API Error: {message}"`; with it disabled, the pure simulated
policy answers; and for any valid request the `/ask` handler surfaces the
`run_live` result — error text included — as a normal 200 response. -/
theorem claim_C7 :
    (∀ (a : SimpleAgent) (c : Clock) (q e : String),
      SimpleAgent.runLive true (Except.error e) c a q = "OpenAI API Error: " ++ e) ∧
    (∀ (a : SimpleAgent) (c : Clock) (q : String) (svc : Except String String),
      SimpleAgent.runLive false svc c a q = a.getSimulatedResponse c q) ∧
    (∀ (u : Bool) (svc : Except String String) (c : Clock)
        (d : List (String × String)) (q : String) (a : SimpleAgent),
      pyDictGet d "query" = some q → q ≠ "" →
      lookupAgent ((pyDictGet d "agent").getD "coordinator") = some a →
      ask u svc c (some d) =
        ⟨200, none, none, some ((pyDictGet d "agent").getD "coordinator"),
          some q, some (SimpleAgent.runLive u svc c a q)⟩) := by
  refine ⟨fun a c q e => rfl, fun a c q svc => rfl, ?_⟩
  intro u svc c d q a hq hqne hl
  rcases d with _ | ⟨p, t⟩
  · simp [pyDictGet] at hq
  · have hqb : (q == "") = false := beq_eq_false_iff_ne.mpr hqne
    simp [ask, hq, hqb, hl]

/-- Concrete instantiation of `claim_C7`: a failing external call on the
body `{"query": "hello"}` is answered with HTTP 200 whose `response` text
embeds the error message. -/
theorem claim_C7_witness :
    SimpleAgent.runLive true (Except.error "rate limit")
        ⟨"2026-10-12 10:00:00", "10:00:00"⟩ coordinator "hello" =
      "OpenAI API Error: " ++ "rate limit" ∧
    SimpleAgent.runLive false (Except.ok "text")
        ⟨"2026-10-12 10:00:00", "10:00:00"⟩ greeter "hello" =
      greeter.getSimulatedResponse ⟨"2026-10-12 10:00:00", "10:00:00"⟩ "hello" ∧
    ask true (Except.error "rate limit") ⟨"2026-10-12 10:00:00", "10:00:00"⟩
        (some [("query", "hello")]) =
      ⟨200, none, none,
        some ((pyDictGet [("query", "hello")] "agent").getD "coordinator"),
        some "hello",
        some (SimpleAgent.runLive true (Except.error "rate limit")
          ⟨"2026-10-12 10:00:00", "10:00:00"⟩ coordinator "hello")⟩ :=
  ⟨claim_C7.1 coordinator ⟨"2026-10-12 10:00:00", "10:00:00"⟩ "hello" "rate limit",
   claim_C7.2.1 greeter ⟨"2026-10-12 10:00:00", "10:00:00"⟩ "hello" (Except.ok "text"),
   claim_C7.2.2 true (Except.error "rate limit")
     ⟨"2026-10-12 10:00:00", "10:00:00"⟩ [("query", "hello")] "hello" coordinator
     (by decide) (by decide) rfl⟩

/-- C8: the registry maps exactly the three names `greeter`,
`task_executor`, `coordinator` — in that order — to their agent instances,
and the coordinator's children list is exactly `[greeter, task_executor]`
with the greeting specialist at index 0 and the task specialist at
index 1.  (In this pure embedding no operation can mutate the registry or
an agent after construction: `ask` and the response functions only read
these constants.) -/
theorem claim_C8 :
    agentNames = ["greeter", "task_executor", "coordinator"] ∧
    lookupAgent "greeter" = some greeter ∧
    lookupAgent "task_executor" = some task_executor ∧
    lookupAgent "coordinator" = some coordinator ∧
    coordinator.subAgents = [greeter, task_executor] ∧
    coordinator.subAgents[0]? = some greeter ∧
    coordinator.subAgents[1]? = some task_executor ∧
    greeter.name = "greeter" ∧
    task_executor.name = "task_executor" ∧
    coordinator.name = "coordinator" :=
  ⟨rfl, rfl, rfl, rfl, rfl, rfl, rfl, rfl, rfl, rfl⟩

/-- C9: the simulated policy is deterministic up to the clock.  Identical
inputs (agent name, query, clock) give identical replies; and every branch
that does not read the clock — all greeter branches, the task-executor
capability fallback, the coordinator capability fallback, and the
unknown-name fallback — gives the same reply under any two clocks. -/
theorem claim_C9 :
    (∀ (n : String) (c : Clock) (q : String), resolve n c q = resolve n c q) ∧
    (∀ (c₁ c₂ : Clock) (q : String),
      greeter.getSimulatedResponse c₁ q = greeter.getSimulatedResponse c₂ q) ∧
    (∀ (c₁ c₂ : Clock) (q : String),
      anyWordIn (pyLower q) ["time", "clock", "when"] = false →
      anyWordIn (pyLower q) ["task", "do", "execute", "perform", "run"] = false →
      task_executor.getSimulatedResponse c₁ q =
        task_executor.getSimulatedResponse c₂ q) ∧
    (∀ (c₁ c₂ : Clock) (q : String),
      (strContains (pyLower q) "greet" || strContains (pyLower q) "hello") = false →
      anyWordIn (pyLower q) ["task", "time", "execute", "perform"] = false →
      coordinator.getSimulatedResponse c₁ q =
        coordinator.getSimulatedResponse c₂ q) ∧
    (∀ (nm desc : String) (tools : List String) (subs : List SimpleAgent),
      nm ≠ "greeter" → nm ≠ "task_executor" → nm ≠ "coordinator" →
      ∀ (c₁ c₂ : Clock) (q : String),
        (SimpleAgent.mk nm desc tools subs).getSimulatedResponse c₁ q =
          (SimpleAgent.mk nm desc tools subs).getSimulatedResponse c₂ q) := by
  refine ⟨fun n c q => rfl, fun c₁ c₂ q => by rw [greeter_resp_eq, greeter_resp_eq],
    ?_, ?_, ?_⟩
  · intro c₁ c₂ q h₁ h₂
    rw [taskExecutor_resp_eq, taskExecutor_resp_eq]
    simp [h₁, h₂]
  · intro c₁ c₂ q hg ht
    rw [coordinator_resp_eq, coordinator_resp_eq]
    simp [hg, ht]
  · intro nm desc tools subs h₁ h₂ h₃ c₁ c₂ q
    rw [getSimulatedResponse_other nm desc tools subs h₁ h₂ h₃ c₁ q,
      getSimulatedResponse_other nm desc tools subs h₁ h₂ h₃ c₂ q]

/-- Concrete instantiation of `claim_C9`: the clock-free branches agree
under two different clocks. -/
theorem claim_C9_witness :
    task_executor.getSimulatedResponse ⟨"A", "B"⟩ "who are you" =
      task_executor.getSimulatedResponse ⟨"C", "D"⟩ "who are you" ∧
    coordinator.getSimulatedResponse ⟨"A", "B"⟩ "bye" =
      coordinator.getSimulatedResponse ⟨"C", "D"⟩ "bye" ∧
    (SimpleAgent.mk "other" "desc" [] []).getSimulatedResponse ⟨"A", "B"⟩ "x" =
      (SimpleAgent.mk "other" "desc" [] []).getSimulatedResponse ⟨"C", "D"⟩ "x" :=
  ⟨claim_C9.2.2.1 ⟨"A", "B"⟩ ⟨"C", "D"⟩ "who are you" (by decide) (by decide),
   claim_C9.2.2.2.1 ⟨"A", "B"⟩ ⟨"C", "D"⟩ "bye" (by decide) (by decide),
   claim_C9.2.2.2.2 "other" "desc" [] [] (by decide) (by decide) (by decide)
     ⟨"A", "B"⟩ ⟨"C", "D"⟩ "x"⟩

/-- C10: a `/ask` body carrying `"query"` mapped to the empty string is
rejected exactly like a missing query — HTTP 400 with error `"No query
provided"` — and since this check precedes the agent-name check, a body
with an unknown agent and a missing or empty query yields 400, not 404. -/
theorem claim_C10 (u : Bool) (svc : Except String String) (c : Clock)
    (d : List (String × String)) (hd : d ≠ [])
    (h : pyDictGet d "query" = some "" ∨ pyDictGet d "query" = none) :
    ask u svc c (some d) = ⟨400, some "No query provided", none, none, none, none⟩ := by
  rcases d with _ | ⟨p, t⟩
  · exact absurd rfl hd
  · rcases h with h | h <;> simp [ask, h]

/-- Concrete instantiation of `claim_C10`: the bodies
`{"agent": "unknown", "query": ""}` and `{"agent": "unknown"}` both yield
the 400 "No query provided" response, not the 404 unknown-agent one. -/
theorem claim_C10_witness :
    ask false (Except.ok "") ⟨"2026-10-12 10:00:00", "10:00:00"⟩
        (some [("agent", "unknown"), ("query", "")]) =
      ⟨400, some "No query provided", none, none, none, none⟩ ∧
    ask false (Except.ok "") ⟨"2026-10-12 10:00:00", "10:00:00"⟩
        (some [("agent", "unknown")]) =
      ⟨400, some "No query provided", none, none, none, none⟩ :=
  ⟨claim_C10 false (Except.ok "") ⟨"2026-10-12 10:00:00", "10:00:00"⟩
      [("agent", "unknown"), ("query", "")] (by decide) (Or.inl (by decide)),
   claim_C10 false (Except.ok "") ⟨"2026-10-12 10:00:00", "10:00:00"⟩
      [("agent", "unknown")] (by decide) (Or.inr (by decide))⟩
